import Mathlib

/-!
# apc-ups-exporter: the metric registry of `metrics.go`

A shallow embedding of `metrics.go`: the nineteen package-level metric
declarations, `ResetMetrics` and `ServeMetrics`, together with the part of the
Prometheus client library (`Gauge`, `GaugeVec`, `BuildFQName`, registration)
and of `net/http` whose behaviour these functions rely on.

The process-wide metric variables become one explicit `Registry` value that
`ResetMetrics` maps to a new `Registry`.
-/

namespace ApcUpsExporter

/-! ## Client-library data model -/

/-- A gauge sample. In the source a sample is a Go `float64`; `metrics.go` only
ever stores the constant `0` and never computes with a sample, so the carrier
is taken to be the integers and nothing but `0` and equality is used. -/
abbrev Sample := Int

/-- The library type `prometheus.GaugeVec` for a vector declared with one label
name (`[]string{"string"}` in every declaration of the source): the children
created so far, each a label value with its current sample, in creation order.
At a scrape the vector exposes one series per child. -/
structure GaugeVec where
  children : List (String × Sample)
deriving DecidableEq, Repr

/-- The handle that `GaugeVec.WithLabelValues` returns: the vector (with the
child present) and the label value that selects the child. -/
structure Child where
  vec : GaugeVec
  label : String
deriving DecidableEq, Repr

namespace GaugeVec

/-- Whether the vector has a child for label value `l`. -/
def hasChild (v : GaugeVec) (l : String) : Bool :=
  v.children.any (fun e => e.1 == l)

/-- The library method `GaugeVec.WithLabelValues(l)`: get the child for `l`,
creating it with sample `0` when the vector has none. No other child is
touched. -/
def WithLabelValues (v : GaugeVec) (l : String) : Child :=
  if v.hasChild l then ⟨v, l⟩ else ⟨⟨v.children ++ [(l, 0)]⟩, l⟩

/-- The series the vector exposes at a scrape: one per child. -/
def exposed (v : GaugeVec) : List (String × Sample) := v.children

end GaugeVec

/-- The library method `Gauge.Set(x)` on a child of a vector: store `x` as the
sample of the selected child. -/
def Child.Set (c : Child) (x : Sample) : GaugeVec :=
  ⟨c.vec.children.map (fun e => if e.1 = c.label then (e.1, x) else e)⟩

/-! ## The registry state (`var (...)` block, lines 14-170) -/

/-- The nineteen package-level metric variables of `metrics.go`: fifteen plain
gauges (one sample each) and four gauge vectors. -/
structure Registry where
  metricStatus : GaugeVec
  metricPowerInputExpectVoltage : Sample
  metricPowerOutputWattage : Sample
  metricPowerLineVoltage : Sample
  metricPowerLoadPercent : Sample
  metricBatteryExpectVoltage : Sample
  metricBatteryActualVoltage : Sample
  metricBatteryTimeSpentLatestSeconds : Sample
  metricBatteryTimeSpentTotalSeconds : Sample
  metricBatteryRemainingChargePercent : Sample
  metricBatteryRemainingTimeMinutes : Sample
  metricDaemonRemainingChargePercent : Sample
  metricDaemonRemainingTimeMinutes : Sample
  metricDaemonTimeoutMinutes : Sample
  metricDaemonTransferCount : Sample
  metricDaemonStartTimestamp : Sample
  metricHostname : GaugeVec
  metricApcHeader : GaugeVec
  metricAlarmDel : GaugeVec
deriving DecidableEq, Repr

/-- The state the package-level declarations construct: `promauto.NewGauge`
yields a gauge whose sample is `0`, `promauto.NewGaugeVec` a vector without
children. -/
def freshRegistry : Registry where
  metricStatus := ⟨[]⟩
  metricPowerInputExpectVoltage := 0
  metricPowerOutputWattage := 0
  metricPowerLineVoltage := 0
  metricPowerLoadPercent := 0
  metricBatteryExpectVoltage := 0
  metricBatteryActualVoltage := 0
  metricBatteryTimeSpentLatestSeconds := 0
  metricBatteryTimeSpentTotalSeconds := 0
  metricBatteryRemainingChargePercent := 0
  metricBatteryRemainingTimeMinutes := 0
  metricDaemonRemainingChargePercent := 0
  metricDaemonRemainingTimeMinutes := 0
  metricDaemonTimeoutMinutes := 0
  metricDaemonTransferCount := 0
  metricDaemonStartTimestamp := 0
  metricHostname := ⟨[]⟩
  metricApcHeader := ⟨[]⟩
  metricAlarmDel := ⟨[]⟩

/-- The numeric (plain gauge) metrics in the order NOMINV, NOMPOWER, LINEV,
LOADPCT, NOMBATTV, BATTV, TONBATT, CUMONBATT, BCHARGE, TIMELEFT, MBATTCHG,
MINTIMEL, MAXTIME, NUMXFERS, STARTTIME. -/
def Registry.numericSamples (s : Registry) : List Sample :=
  [s.metricPowerInputExpectVoltage, s.metricPowerOutputWattage,
   s.metricPowerLineVoltage, s.metricPowerLoadPercent,
   s.metricBatteryExpectVoltage, s.metricBatteryActualVoltage,
   s.metricBatteryTimeSpentLatestSeconds, s.metricBatteryTimeSpentTotalSeconds,
   s.metricBatteryRemainingChargePercent, s.metricBatteryRemainingTimeMinutes,
   s.metricDaemonRemainingChargePercent, s.metricDaemonRemainingTimeMinutes,
   s.metricDaemonTimeoutMinutes, s.metricDaemonTransferCount,
   s.metricDaemonStartTimestamp]

/-! ## `ResetMetrics` (lines 173-203) -/

/-- The function `ResetMetrics`, statement by statement. The commented-out
statement for `metricAlarmDel` (line 201) is not executed, so that vector is
passed through. -/
def ResetMetrics (s : Registry) : Registry where
  metricStatus := (s.metricStatus.WithLabelValues "UNKNOWN0").Set 0
  metricPowerInputExpectVoltage := 0
  metricPowerOutputWattage := 0
  metricPowerLineVoltage := 0
  metricPowerLoadPercent := 0
  metricBatteryExpectVoltage := 0
  metricBatteryActualVoltage := 0
  metricBatteryTimeSpentLatestSeconds := 0
  metricBatteryTimeSpentTotalSeconds := 0
  metricBatteryRemainingChargePercent := 0
  metricBatteryRemainingTimeMinutes := 0
  metricDaemonRemainingChargePercent := 0
  metricDaemonRemainingTimeMinutes := 0
  metricDaemonTimeoutMinutes := 0
  metricDaemonTransferCount := 0
  metricDaemonStartTimestamp := 0
  metricHostname := (s.metricHostname.WithLabelValues "localhost").Set 0
  metricApcHeader := (s.metricApcHeader.WithLabelValues "001,037,0906").Set 0
  metricAlarmDel := s.metricAlarmDel

/-- A registry in which an earlier cycle made STATUS expose "ONLINE", the
host name "AzurPc" and the header "001,037,0937" (values of the sample record
in the trailing comment of `metrics.go`), with some numeric samples set. -/
def populatedRegistry : Registry :=
  { freshRegistry with
    metricStatus := ⟨[("ONLINE", 1)]⟩
    metricPowerLineVoltage := 232
    metricDaemonTransferCount := 2
    metricHostname := ⟨[("AzurPc", 1)]⟩
    metricApcHeader := ⟨[("001,037,0937", 1)]⟩ }

/-! ## The metric declarations (`var (...)` block, lines 14-170) -/

/-- The fields of `prometheus.GaugeOpts` that the declarations set. A field a
declaration leaves out is the empty string, as in Go. -/
structure GaugeOpts where
  Namespace : String
  Subsystem : String
  Name : String
  Help : String
deriving DecidableEq, Repr

/-- One declaration of the `var` block: the Go variable, its options, and the
label names (`none` for `promauto.NewGauge`, `some names` for
`promauto.NewGaugeVec`). -/
structure MetricDecl where
  varName : String
  opts : GaugeOpts
  labelNames : Option (List String)
deriving DecidableEq, Repr

/-- The library function `prometheus.BuildFQName`: namespace, subsystem and
name joined by underscores, empty namespace or subsystem left out; an empty
name gives the empty string. -/
def BuildFQName (ns subsystem name : String) : String :=
  if name = "" then ""
  else if ns ≠ "" ∧ subsystem ≠ "" then String.intercalate "_" [ns, subsystem, name]
  else if ns ≠ "" then String.intercalate "_" [ns, name]
  else if subsystem ≠ "" then String.intercalate "_" [subsystem, name]
  else name

/-- The fully-qualified name under which a declared metric is exposed and
registered: the library builds it with `BuildFQName` from the options. -/
def MetricDecl.fqName (d : MetricDecl) : String :=
  BuildFQName d.opts.Namespace d.opts.Subsystem d.opts.Name

/-- The nineteen declarations, in source order. -/
def metricDecls : List MetricDecl := [
  { varName := "metricStatus"
    opts := { Namespace := "ups", Subsystem := "", Name := "status",
              Help := "The current status. STATUS The current status of the UPS (1-ONLINE, 2-ONBATT, etc.)." }
    labelNames := some ["string"] },
  { varName := "metricPowerInputExpectVoltage"
    opts := { Namespace := "ups", Subsystem := "power", Name := "input_expect_voltage",
              Help := "The expected input voltage. NOMINV The input voltage that the UPS is configured to expect." }
    labelNames := none },
  { varName := "metricPowerOutputWattage"
    opts := { Namespace := "ups", Subsystem := "power", Name := "output_maximum_wattage",
              Help := "The maximum power the UPS can output. NOMPOWER The maximum power in Watts that the UPS is designed to supply." }
    labelNames := none },
  { varName := "metricPowerLineVoltage"
    opts := { Namespace := "ups", Subsystem := "power", Name := "line_voltage",
              Help := "The current line voltage as returned by the UPS. LINEV The current line voltage as returned by the UPS." }
    labelNames := none },
  { varName := "metricPowerLoadPercent"
    opts := { Namespace := "ups", Subsystem := "power", Name := "load_percent",
              Help := "The current load capacity as estimated by the UPS, as a percentage. LOADPCT The percentage of load capacity as estimated by the UPS." }
    labelNames := none },
  { varName := "metricBatteryExpectVoltage"
    opts := { Namespace := "ups", Subsystem := "battery", Name := "output_expect_voltage",
              Help := "The expected output voltage of the battery. NOMBATTV The nominal battery voltage." }
    labelNames := none },
  { varName := "metricBatteryActualVoltage"
    opts := { Namespace := "ups", Subsystem := "battery", Name := "output_actual_voltage",
              Help := "The actual output voltage of the battery. BATTV Battery voltage as supplied by the UPS." }
    labelNames := none },
  { varName := "metricBatteryTimeSpentLatestSeconds"
    opts := { Namespace := "ups", Subsystem := "battery", Name := "time_spent_latest_seconds",
              Help := "The latest time spent on battery. TONBATT Time in seconds currently on batteries, or 0." }
    labelNames := none },
  { varName := "metricBatteryTimeSpentTotalSeconds"
    opts := { Namespace := "ups", Subsystem := "battery", Name := "time_spent_total_seconds",
              Help := "The total time spent on battery. CUMONBATT Total (cumulative) time on batteries in seconds since apcupsd startup." }
    labelNames := none },
  { varName := "metricBatteryRemainingChargePercent"
    opts := { Namespace := "ups", Subsystem := "battery", Name := "remaining_charge_percent",
              Help := "The remaining charge on the battery, as a percentage. BCHARGE The percentage charge on the batteries." }
    labelNames := none },
  { varName := "metricBatteryRemainingTimeMinutes"
    opts := { Namespace := "ups", Subsystem := "battery", Name := "remaining_time_minutes",
              Help := "The remaining runtime left on the battery as estimated by the UPS, in minutes. TIMELEFT The remaining runtime left on batteries as estimated by the UPS." }
    labelNames := none },
  { varName := "metricDaemonRemainingChargePercent"
    opts := { Namespace := "ups", Subsystem := "daemon", Name := "remaining_charge_percent",
              Help := "The configured minimum remaining charge on the battery to trigger a system shutdown, as a percentage. MBATTCHG If the battery charge percentage (BCHARGE) drops below this value, apcupsd will shutdown your system. Value is set in the configuration file (BATTERYLEVEL)" }
    labelNames := none },
  { varName := "metricDaemonRemainingTimeMinutes"
    opts := { Namespace := "ups", Subsystem := "daemon", Name := "remaining_time_minutes",
              Help := "The configured minimum remaining runtime left on the battery to trigger a system shutdown, in minutes. MINTIMEL apcupsd will shutdown your system if the remaining runtime equals or is below this point. Value is set in the configuration file (MINUTES)" }
    labelNames := none },
  { varName := "metricDaemonTimeoutMinutes"
    opts := { Namespace := "ups", Subsystem := "daemon", Name := "timeout_minutes",
              Help := "The configured maximum time running on the battery to trigger a system shutdown, in minutes. MAXTIME apcupsd will shutdown your system if the time on batteries exceeds this value. A value of zero disables the feature. Value is set in the configuration file (TIMEOUT)" }
    labelNames := none },
  { varName := "metricDaemonTransferCount"
    opts := { Namespace := "ups", Subsystem := "daemon", Name := "transfer_count",
              Help := "The number of transfers to the battery. NUMXFERS The number of transfers to batteries since apcupsd startup." }
    labelNames := none },
  { varName := "metricDaemonStartTimestamp"
    opts := { Namespace := "ups", Subsystem := "daemon", Name := "start_timestamp",
              Help := "The date & time the daemon was started. STARTTIME The time/date that apcupsd was started." }
    labelNames := none },
  { varName := "metricHostname"
    opts := { Namespace := "ups", Subsystem := "daemon", Name := "hostname",
              Help := "HOSTNAME The name of the machine that collected the UPS data." }
    labelNames := some ["string"] },
  { varName := "metricApcHeader"
    opts := { Namespace := "ups", Subsystem := "daemon", Name := "apc",
              Help := "APC Header record indicating the STATUS format revision level, the number of records that follow the APC statement, and the number of bytes that follow the record." }
    labelNames := some ["string"] },
  { varName := "metricAlarmDel"
    opts := { Namespace := "ups", Subsystem := "daemon", Name := "alarm",
              Help := "ALARMDEL The delay period for the UPS alarm." }
    labelNames := some ["string"] } ]

/-- The fully-qualified names of the declared metrics, in source order. -/
def fqNames : List String := metricDecls.map MetricDecl.fqName

/-- Registration of one declared metric (`promauto` calls `MustRegister` on
the default registry): the registry keeps the descriptor identities registered
so far, which for a metric without constant labels is its fully-qualified name.
A name already present is the duplicate-registration error, on which
`MustRegister` panics; it is the `error` case here. Other reasons for a
registration to fail are outside this model. -/
def MustRegister (registered : List String) (d : MetricDecl) : Except String (List String) :=
  if d.fqName ∈ registered then
    .error ("duplicate metrics collector registration attempted: " ++ d.fqName)
  else .ok (registered ++ [d.fqName])

/-- Package initialisation: the declarations are evaluated, and so registered,
in source order, starting from what the default registry already holds. -/
def registerAll (registered : List String) : Except String (List String) :=
  metricDecls.foldlM MustRegister registered

/-! ## `ServeMetrics` (lines 206-218) -/

/-- A Go `error` value; `none` is `nil`. -/
abbrev Error := Option String

/-- A `net.IP`: its bytes. -/
abbrev IP := List Nat

/-- The handlers that occur in the source. -/
inductive Handler where
  | promhttpHandler
deriving DecidableEq, Repr

/-- The calls `ServeMetrics` makes into `net/http`. The second argument of
`ListenAndServe` is the handler, `none` for `nil` (the default mux). -/
inductive Call where
  | Handle (pattern : String) (handler : Handler)
  | ListenAndServe (addr : String) (handler : Option Handler)
deriving DecidableEq, Repr

/-- How a Go call ends: it returns a value, it panics, or it never returns
(`http.ListenAndServe` serves until it fails). -/
inductive Outcome (α : Type) where
  | returned (a : α)
  | panicked
  | blocked
deriving DecidableEq, Repr

/-- The environment `ServeMetrics` runs in: the text `net.IP.String` gives for
an address (what `%s` prints), whether `http.Handle` accepts a pattern (it
panics on one it rejects, such as one registered already), and how
`http.ListenAndServe` ends for a listen address (`none`: it never returns). -/
structure HttpEnv where
  ipString : IP → String
  handleAccepts : String → Bool
  listenAndServe : String → Option Error

/-- The call `fmt.Sprintf("%s:%d", address, port)`: the address text, a colon,
the port in decimal. -/
def listenAddr (env : HttpEnv) (address : IP) (port : Int) : String :=
  env.ipString address ++ ":" ++ toString port

/-- The function `ServeMetrics`: the calls it makes, in order, and how it
ends. -/
def ServeMetrics (env : HttpEnv) (address : IP) (port : Int) (path : String) :
    List Call × Outcome Error :=
  if env.handleAccepts path then
    let calls := [Call.Handle path Handler.promhttpHandler,
                  Call.ListenAndServe (listenAddr env address port) none]
    match env.listenAndServe (listenAddr env address port) with
    | none => (calls, Outcome.blocked)
    | some listenError =>
      if listenError ≠ none then (calls, Outcome.returned listenError)
      else (calls, Outcome.returned none)
  else ([Call.Handle path Handler.promhttpHandler], Outcome.panicked)

/-- An environment for examples: IPv4 addresses print dotted, every pattern
but the empty one is accepted, and listening fails at once on port 80 with a
permission error and on any other address never returns. -/
def sampleEnv : HttpEnv where
  ipString := fun ip => String.intercalate "." (ip.map toString)
  handleAccepts := fun p => p ≠ ""
  listenAndServe := fun a =>
    if a = "127.0.0.1:80" then some (some "listen tcp 127.0.0.1:80: bind: permission denied")
    else none

/-- What `Set x` does to one child when the selected label is `l`. -/
def storeAt (l : String) (x : Sample) (e : String × Sample) : String × Sample :=
  if e.1 = l then (e.1, x) else e

/-! ## Lemmas on `WithLabelValues(l).Set(x)` -/

theorem storeAt_fst (l : String) (x : Sample) (e : String × Sample) :
    (storeAt l x e).1 = e.1 := by
  unfold storeAt; split <;> rfl

theorem storeAt_idem (l : String) (x : Sample) (e : String × Sample) :
    storeAt l x (storeAt l x e) = storeAt l x e := by
  unfold storeAt; split <;> simp_all

theorem withLabelValues_set_children (v : GaugeVec) (l : String) (x : Sample) :
    ((v.WithLabelValues l).Set x).children =
      if v.hasChild l then v.children.map (storeAt l x)
      else v.children.map (storeAt l x) ++ [(l, x)] := by
  unfold GaugeVec.WithLabelValues Child.Set
  split <;> simp [storeAt, List.map_append]

theorem hasChild_map_storeAt (v : GaugeVec) (l k : String) (x : Sample) :
    (GaugeVec.mk (v.children.map (storeAt l x))).hasChild k = v.hasChild k := by
  simp [GaugeVec.hasChild, List.any_map, Function.comp_def, storeAt_fst]

theorem hasChild_withLabelValues_set (v : GaugeVec) (l k : String) (x : Sample) :
    ((v.WithLabelValues l).Set x).hasChild k = (v.hasChild k || (k == l)) := by
  have h := withLabelValues_set_children v l x
  by_cases hc : v.hasChild l = true
  · rw [if_pos hc] at h
    have h2 : ((v.WithLabelValues l).Set x) = GaugeVec.mk (v.children.map (storeAt l x)) := by
      cases hv : (v.WithLabelValues l).Set x; simp_all
    rw [h2, hasChild_map_storeAt]
    by_cases hk : k = l
    · subst hk; simp [hc]
    · simp [hk]
  · rw [if_neg hc] at h
    have h2 : ((v.WithLabelValues l).Set x) =
        GaugeVec.mk (v.children.map (storeAt l x) ++ [(l, x)]) := by
      cases hv : (v.WithLabelValues l).Set x; simp_all
    rw [h2]
    have h3 := hasChild_map_storeAt v l k x
    simp only [GaugeVec.hasChild, List.any_append] at h3 ⊢
    rw [h3]
    congr 1
    by_cases hk : k = l
    · subst hk; simp
    · have hk2 : ¬ l = k := fun h => hk h.symm
      simp [hk, hk2]

theorem withLabelValues_set_idem (v : GaugeVec) (l : String) (x : Sample) :
    (((v.WithLabelValues l).Set x).WithLabelValues l).Set x = (v.WithLabelValues l).Set x := by
  have hc : ((v.WithLabelValues l).Set x).hasChild l = true := by
    rw [hasChild_withLabelValues_set]; simp
  have h1 := withLabelValues_set_children ((v.WithLabelValues l).Set x) l x
  rw [if_pos hc] at h1
  have h0 := withLabelValues_set_children v l x
  cases hv : (v.WithLabelValues l).Set x with
  | mk cs =>
    rw [hv] at h1 h0
    simp only at h0
    cases hw : ((GaugeVec.mk cs).WithLabelValues l).Set x with
    | mk ds =>
      rw [hw] at h1
      simp only at h1
      congr 1
      rw [h1]
      have hfix : ∀ e ∈ cs, storeAt l x e = e := by
        intro e he
        rw [h0] at he
        split at he
        · obtain ⟨a, _, rfl⟩ := List.mem_map.mp he
          exact storeAt_idem l x a
        · rcases List.mem_append.mp he with he | he
          · obtain ⟨a, _, rfl⟩ := List.mem_map.mp he
            exact storeAt_idem l x a
          · simp at he; subst he; simp [storeAt]
      calc cs.map (storeAt l x) = cs.map id := List.map_congr_left hfix
        _ = cs := List.map_id cs

theorem resetMetrics_resetMetrics (s : Registry) :
    ResetMetrics (ResetMetrics s) = ResetMetrics s := by
  simp only [ResetMetrics, withLabelValues_set_idem]

/-! ## The claims about `ResetMetrics` -/

/-- C1: for every registry state, whatever samples the gauges held before,
after one call of `ResetMetrics` each of the fifteen numeric metrics (NOMINV,
NOMPOWER, LINEV, LOADPCT, NOMBATTV, BATTV, TONBATT, CUMONBATT, BCHARGE,
TIMELEFT, MBATTCHG, MINTIMEL, MAXTIME, NUMXFERS, STARTTIME) reads exactly 0. -/
theorem resetMetrics_numeric_all_zero (s : Registry) :
    (ResetMetrics s).metricPowerInputExpectVoltage = 0 ∧
    (ResetMetrics s).metricPowerOutputWattage = 0 ∧
    (ResetMetrics s).metricPowerLineVoltage = 0 ∧
    (ResetMetrics s).metricPowerLoadPercent = 0 ∧
    (ResetMetrics s).metricBatteryExpectVoltage = 0 ∧
    (ResetMetrics s).metricBatteryActualVoltage = 0 ∧
    (ResetMetrics s).metricBatteryTimeSpentLatestSeconds = 0 ∧
    (ResetMetrics s).metricBatteryTimeSpentTotalSeconds = 0 ∧
    (ResetMetrics s).metricBatteryRemainingChargePercent = 0 ∧
    (ResetMetrics s).metricBatteryRemainingTimeMinutes = 0 ∧
    (ResetMetrics s).metricDaemonRemainingChargePercent = 0 ∧
    (ResetMetrics s).metricDaemonRemainingTimeMinutes = 0 ∧
    (ResetMetrics s).metricDaemonTimeoutMinutes = 0 ∧
    (ResetMetrics s).metricDaemonTransferCount = 0 ∧
    (ResetMetrics s).metricDaemonStartTimestamp = 0 ∧
    (ResetMetrics s).numericSamples = List.replicate 15 0 :=
  ⟨rfl, rfl, rfl, rfl, rfl, rfl, rfl, rfl, rfl, rfl, rfl, rfl, rfl, rfl, rfl, rfl⟩

/-- C2 at the failing input: in `populatedRegistry` STATUS exposes an entry for
the non-baseline text "ONLINE" with sample 1 (and HOSTNAME one for "AzurPc").
After `ResetMetrics` STATUS exposes two entries, not the baseline one alone:
"ONLINE" is still exposed and still reads 1, although the comment on
`ResetMetrics` (line 172) says it sets all of the metrics to zero; HOSTNAME
likewise keeps "AzurPc" at 1. -/
theorem resetMetrics_does_not_retire :
    populatedRegistry.metricStatus.exposed = [("ONLINE", 1)] ∧
    (ResetMetrics populatedRegistry).metricStatus.exposed =
      [("ONLINE", 1), ("UNKNOWN0", 0)] ∧
    (ResetMetrics populatedRegistry).metricStatus.hasChild "ONLINE" = true ∧
    (ResetMetrics populatedRegistry).metricStatus.exposed.length = 2 ∧
    (ResetMetrics populatedRegistry).metricHostname.exposed =
      [("AzurPc", 1), ("localhost", 0)] := by
  decide

/-- C3: `ResetMetrics` is idempotent: for every registry state `s` and every
`n ≥ 1`, applying `ResetMetrics` `n` times to `s` gives the same registry
state (all samples and all labelled entries with their samples) as applying it
once. -/
theorem resetMetrics_iterate (s : Registry) (n : Nat) (h : 1 ≤ n) :
    ResetMetrics^[n] s = ResetMetrics s := by
  induction n with
  | zero => omega
  | succ m ih =>
    cases m with
    | zero => rfl
    | succ k =>
      rw [Function.iterate_succ_apply', ih (by omega), resetMetrics_resetMetrics]

/-- C3 at a concrete input: three resets of `populatedRegistry` equal one. -/
theorem resetMetrics_iterate_witness :
    1 ≤ 3 ∧ ResetMetrics^[3] populatedRegistry = ResetMetrics populatedRegistry :=
  ⟨by decide, resetMetrics_iterate populatedRegistry 3 (by decide)⟩

/-- C4, as stated, fails: in the freshly constructed registry STATUS, HOSTNAME
and the daemon header expose no entry at all, in particular not their baseline
entry, and the state differs from the one `ResetMetrics` produces from it. -/
theorem freshRegistry_lacks_baseline_entries :
    freshRegistry.metricStatus.exposed = [] ∧
    freshRegistry.metricStatus.hasChild "UNKNOWN0" = false ∧
    freshRegistry.metricHostname.hasChild "localhost" = false ∧
    freshRegistry.metricApcHeader.hasChild "001,037,0906" = false ∧
    (ResetMetrics freshRegistry).metricStatus.exposed ≠ freshRegistry.metricStatus.exposed ∧
    ResetMetrics freshRegistry ≠ freshRegistry := by
  decide

/-- C4, amended: in the freshly constructed registry every numeric metric
reads 0, as after `ResetMetrics`, and every categorical metric exposes no
entry; the baseline entries of STATUS, HOSTNAME and the daemon header appear
with the first `ResetMetrics`, which changes nothing else. -/
theorem freshRegistry_numeric_zero_vectors_empty :
    freshRegistry.numericSamples = List.replicate 15 0 ∧
    (ResetMetrics freshRegistry).numericSamples = freshRegistry.numericSamples ∧
    freshRegistry.metricStatus.exposed = [] ∧
    freshRegistry.metricHostname.exposed = [] ∧
    freshRegistry.metricApcHeader.exposed = [] ∧
    freshRegistry.metricAlarmDel.exposed = [] ∧
    ResetMetrics freshRegistry =
      { freshRegistry with
        metricStatus := ⟨[("UNKNOWN0", 0)]⟩
        metricHostname := ⟨[("localhost", 0)]⟩
        metricApcHeader := ⟨[("001,037,0906", 0)]⟩ } := by
  decide

/-- C5, as stated, fails: after `ResetMetrics` on the freshly constructed
registry the alarm-delay metric `metricAlarmDel` has no entry, not one. -/
theorem resetMetrics_fresh_alarmDel_empty :
    (ResetMetrics freshRegistry).metricAlarmDel.exposed = [] ∧
    (ResetMetrics freshRegistry).metricAlarmDel.exposed.length ≠ 1 := by
  decide

/-- C5, amended: after `ResetMetrics` on the freshly constructed registry
STATUS, HOSTNAME and the daemon header each expose exactly one entry, their
baseline ("UNKNOWN0", "localhost", "001,037,0906") with sample 0, while the
alarm-delay metric exposes none: `ResetMetrics` leaves that metric as it found
it, in every state. -/
theorem resetMetrics_fresh_one_entry_except_alarmDel :
    (ResetMetrics freshRegistry).metricStatus.exposed = [("UNKNOWN0", 0)] ∧
    (ResetMetrics freshRegistry).metricHostname.exposed = [("localhost", 0)] ∧
    (ResetMetrics freshRegistry).metricApcHeader.exposed = [("001,037,0906", 0)] ∧
    (ResetMetrics freshRegistry).metricAlarmDel.exposed = [] ∧
    (∀ s : Registry, (ResetMetrics s).metricAlarmDel = s.metricAlarmDel) :=
  ⟨by decide, by decide, by decide, by decide, fun _ => rfl⟩

theorem registerAll_aux (ds : List MetricDecl) :
    ∀ pre : List String, (ds.map MetricDecl.fqName).Nodup →
      (∀ n ∈ ds.map MetricDecl.fqName, n ∉ pre) →
      ds.foldlM MustRegister pre = Except.ok (pre ++ ds.map MetricDecl.fqName) := by
  induction ds with
  | nil => intro pre _ _; simp [List.foldlM, pure, Except.pure]
  | cons d ds ih =>
    intro pre hnd hpre
    have hd : d.fqName ∉ pre := hpre _ (by simp)
    rw [List.map_cons, List.nodup_cons] at hnd
    have hstep : MustRegister pre d = Except.ok (pre ++ [d.fqName]) := by
      simp [MustRegister, hd]
    rw [List.foldlM_cons, hstep]
    show ds.foldlM MustRegister (pre ++ [d.fqName]) = _
    rw [ih (pre ++ [d.fqName]) hnd.2]
    · simp
    · intro n hn hmem
      rcases List.mem_append.mp hmem with h | h
      · exact hpre n (by simp [hn]) h
      · simp at h; subst h; exact hnd.1 hn

/-- C7: every one of the nineteen declared metrics has namespace "ups" and a
subsystem that is one of "power", "battery", "daemon" or empty; the subsystem
is empty for exactly one metric, the top-level status metric; so each exposed
name is `ups_<subsystem>_<name>`, or `ups_status` for STATUS. -/
theorem metricDecls_namespace_subsystem_name :
    metricDecls.length = 19 ∧
    (∀ d ∈ metricDecls,
      d.opts.Namespace = "ups" ∧
      d.opts.Subsystem ∈ ["power", "battery", "daemon", ""] ∧
      (d.opts.Subsystem = "" ↔ d.varName = "metricStatus") ∧
      d.fqName = (if d.opts.Subsystem = "" then "ups_" ++ d.opts.Name
                  else "ups_" ++ d.opts.Subsystem ++ "_" ++ d.opts.Name)) ∧
    (metricDecls.filter (fun d => d.opts.Subsystem = "")).map MetricDecl.varName
      = ["metricStatus"] ∧
    (metricDecls.filter (fun d => d.opts.Subsystem = "")).map MetricDecl.fqName
      = ["ups_status"] := by
  decide

/-- C9: the fully-qualified names of the nineteen declared metrics are
pairwise distinct, so registering all of them at package initialisation, in a
default registry that holds none of these names yet, never hits the
duplicate-registration panic; in particular battery/remaining_charge_percent
and daemon/remaining_charge_percent, and battery/remaining_time_minutes and
daemon/remaining_time_minutes, which share a `Name`, differ in full name. -/
theorem fqNames_distinct_registerAll_ok (pre : List String)
    (hpre : ∀ n ∈ pre, n ∉ fqNames) :
    fqNames.length = 19 ∧ fqNames.Nodup ∧
    BuildFQName "ups" "battery" "remaining_charge_percent" ≠
      BuildFQName "ups" "daemon" "remaining_charge_percent" ∧
    BuildFQName "ups" "battery" "remaining_time_minutes" ≠
      BuildFQName "ups" "daemon" "remaining_time_minutes" ∧
    registerAll pre = Except.ok (pre ++ fqNames) := by
  refine ⟨by decide, by decide, by decide, by decide, ?_⟩
  exact registerAll_aux metricDecls pre (by decide) (fun n hn hmem => hpre n hmem hn)

/-- C9 at a concrete input: a default registry that already holds two
collector names of the library registers all nineteen metrics. -/
theorem fqNames_distinct_registerAll_ok_witness :
    (∀ n ∈ ["go_goroutines", "process_start_time_seconds"], n ∉ fqNames) ∧
    registerAll ["go_goroutines", "process_start_time_seconds"] =
      Except.ok (["go_goroutines", "process_start_time_seconds"] ++ fqNames) :=
  ⟨by decide,
   (fqNames_distinct_registerAll_ok ["go_goroutines", "process_start_time_seconds"]
      (by decide)).2.2.2.2⟩

/-! ## The claim about `ServeMetrics` -/

/-- C10: whenever `http.Handle` accepts the path, `ServeMetrics` registers the
metrics handler under the path argument and then makes the listen-and-serve
call with the listen address `<address>:<port>` built from its address and
port arguments; whatever that call returns, `ServeMetrics` returns unchanged
(and it does not return while the call does not), so it returns a non-nil
error if and only if that call returns a non-nil error, and then the same one.
When `http.Handle` panics on the path, no listen call is made and nothing is
returned. In every case the only handler registration is the one under the
path argument, and the only listen address is the built text. -/
theorem serveMetrics_error_iff_listen_error (env : HttpEnv) (address : IP) (port : Int)
    (path : String) :
    (env.handleAccepts path = true →
      (ServeMetrics env address port path).1 =
        [Call.Handle path Handler.promhttpHandler,
         Call.ListenAndServe (env.ipString address ++ ":" ++ toString port) none] ∧
      (∀ r : Error, env.listenAndServe (listenAddr env address port) = some r →
        (ServeMetrics env address port path).2 = Outcome.returned r) ∧
      (env.listenAndServe (listenAddr env address port) = none →
        (ServeMetrics env address port path).2 = Outcome.blocked) ∧
      (∀ e : String,
        (ServeMetrics env address port path).2 = Outcome.returned (some e) ↔
          env.listenAndServe (listenAddr env address port) = some (some e)) ∧
      ((ServeMetrics env address port path).2 = Outcome.returned none ↔
          env.listenAndServe (listenAddr env address port) = some none)) ∧
    (env.handleAccepts path = false →
      ServeMetrics env address port path =
        ([Call.Handle path Handler.promhttpHandler], Outcome.panicked)) ∧
    (∀ e : String,
      (ServeMetrics env address port path).2 = Outcome.returned (some e) ↔
        (Call.ListenAndServe (listenAddr env address port) none
            ∈ (ServeMetrics env address port path).1 ∧
          env.listenAndServe (listenAddr env address port) = some (some e))) ∧
    ((ServeMetrics env address port path).2 = Outcome.returned none ↔
        (Call.ListenAndServe (listenAddr env address port) none
            ∈ (ServeMetrics env address port path).1 ∧
          env.listenAndServe (listenAddr env address port) = some none)) ∧
    (∀ a h, Call.ListenAndServe a h ∈ (ServeMetrics env address port path).1 →
        a = env.ipString address ++ ":" ++ toString port ∧ h = none) ∧
    (∀ p h, Call.Handle p h ∈ (ServeMetrics env address port path).1 ↔
        (p = path ∧ h = Handler.promhttpHandler)) := by
  unfold ServeMetrics
  by_cases hacc : env.handleAccepts path = true
  · rw [if_pos hacc]
    cases hl : env.listenAndServe (listenAddr env address port) with
    | none => simp [listenAddr, hacc]
    | some listenError =>
      cases listenError with
      | none => simp [listenAddr, hacc]
      | some err => simp [listenAddr, hacc]
  · rw [if_neg hacc]
    simp [hacc]

/-- C10 at a concrete input: in `sampleEnv` the path "/metrics" is accepted and
listening on 127.0.0.1:80 fails; `ServeMetrics` makes both calls, the second
with the address "127.0.0.1:80", and returns that very error. -/
theorem serveMetrics_error_iff_listen_error_witness :
    sampleEnv.handleAccepts "/metrics" = true ∧
    sampleEnv.listenAndServe "127.0.0.1:80" =
      some (some "listen tcp 127.0.0.1:80: bind: permission denied") ∧
    (ServeMetrics sampleEnv [127, 0, 0, 1] 80 "/metrics").1 =
      [Call.Handle "/metrics" Handler.promhttpHandler,
       Call.ListenAndServe "127.0.0.1:80" none] ∧
    (ServeMetrics sampleEnv [127, 0, 0, 1] 80 "/metrics").2 =
      Outcome.returned (some "listen tcp 127.0.0.1:80: bind: permission denied") :=
  ⟨by decide, by decide,
   ((serveMetrics_error_iff_listen_error sampleEnv [127, 0, 0, 1] 80 "/metrics").1
      (by decide)).1,
   ((serveMetrics_error_iff_listen_error sampleEnv [127, 0, 0, 1] 80 "/metrics").1
      (by decide)).2.1 _ (by decide)⟩

end ApcUpsExporter
